import Mathlib

set_option maxRecDepth 8192

/-
Shallow embedding of the two scripts of digitalapplied/zoho_crm_api:
fetch_leads.py (lead export) and update_lead_status.py (bulk status update).
HTTP traffic is represented by the one response each call can receive;
each function additionally reports how many HTTP requests it issued.
Python exceptions are modelled by an explicit error type carried in Except.
-/

namespace ZohoCrm

/-- JSON values as returned by response.json(); numbers are modelled as
integers (no claim exercises a float). Objects are association lists with
unique keys, in insertion order, matching Python dicts. -/
inductive Json where
  | null
  | bool (b : Bool)
  | num (n : Int)
  | str (s : String)
  | arr (elems : List Json)
  | obj (fields : List (String × Json))

/-- Python truthiness of a JSON value. -/
def Json.truthy : Json → Bool
  | .null => false
  | .bool b => b
  | .num n => n != 0
  | .str s => !s.data.isEmpty
  | .arr xs => !xs.isEmpty
  | .obj fs => !fs.isEmpty

/-- The whitespace characters Python str.strip removes. -/
def pyWhite (c : Char) : Bool :=
  c == ' ' || c == '\t' || c == '\n' || c == '\r' || c == '\x0b' || c == '\x0c'

/-- Python str.strip: drop whitespace from both ends. -/
def pyStrip (s : String) : String :=
  ⟨((s.data.dropWhile pyWhite).reverse.dropWhile pyWhite).reverse⟩

/-- Python str.lower on one character (ASCII; the prompt answers and the
literal yes are ASCII). -/
def pyCharLower (c : Char) : Char :=
  if 65 ≤ c.toNat ∧ c.toNat ≤ 90 then Char.ofNat (c.toNat + 32) else c

/-- Python str.lower. -/
def pyLower (s : String) : String :=
  ⟨s.data.map pyCharLower⟩

/-- isinstance(v, list). -/
def Json.isArr : Json → Bool
  | .arr _ => true
  | _ => false

/-- Python dict lookup (dict.get with no default): first binding wins;
Python dicts have unique keys so this is exact. -/
def lookupField : List (String × Json) → String → Option Json
  | [], _ => none
  | (k, v) :: rest, key => if k == key then some v else lookupField rest key

/-- The Python exceptions the two scripts can raise or catch. -/
inductive PyError where
  | valueError (msg : String)
  | httpError (status : Nat)
  | keyError (msg : String)
  | typeError (msg : String)
  | attributeError (msg : String)
  | fileNotFoundError
deriving DecidableEq

/-- The exception class, ignoring the message: two errors of the same kind
are indistinguishable by an except clause. -/
inductive ErrKind where
  | valueErrorKind
  | httpErrorKind
  | keyErrorKind
  | typeErrorKind
  | attributeErrorKind
  | fileNotFoundKind
deriving DecidableEq

def PyError.kind : PyError → ErrKind
  | .valueError _ => .valueErrorKind
  | .httpError _ => .httpErrorKind
  | .keyError _ => .keyErrorKind
  | .typeError _ => .typeErrorKind
  | .attributeError _ => .attributeErrorKind
  | .fileNotFoundError => .fileNotFoundKind

/-- One HTTP response: status code and parsed JSON body. -/
structure HttpResp where
  status : Nat
  body : Json

/-- The truthiness test all([CLIENT_ID, CLIENT_SECRET, REFRESH_TOKEN]):
a credential is usable only when present and a non-empty string. -/
def credsPresent (cid cs rt : Option String) : Bool :=
  match cid, cs, rt with
  | some a, some b, some c => !a.data.isEmpty && !b.data.isEmpty && !c.data.isEmpty
  | _, _, _ => false

def credsErrorMsg : String :=
  "Zoho OAuth credentials (CLIENT_ID, CLIENT_SECRET, REFRESH_TOKEN) not found in .env file."

def noTokenMsg : String := "Could not get access token from Zoho response."

/-- get_access_token, duplicated verbatim in fetch_leads.py and
update_lead_status.py, as a function of the credentials and of the one
response the token endpoint would give. The second component counts HTTP
POSTs issued to the accounts URL. raise_for_status raises HTTPError for
4xx and 5xx status codes; token_data.get on a non-dict body raises
AttributeError; a missing or falsy access_token raises ValueError. -/
def get_access_token (cid cs rt : Option String) (resp : HttpResp) :
    Except PyError Json × Nat :=
  if !credsPresent cid cs rt then
    (.error (.valueError credsErrorMsg), 0)
  else if 400 ≤ resp.status then
    (.error (.httpError resp.status), 1)
  else
    match resp.body with
    | .obj fs =>
      match lookupField fs "access_token" with
      | some tok =>
        if tok.truthy then (.ok tok, 1)
        else (.error (.valueError noTokenMsg), 1)
      | none => (.error (.valueError noTokenMsg), 1)
    | _ => (.error (.attributeError "json body has no attribute get"), 1)

/-- read_lead_ids_from_file of update_lead_status.py, applied to the lines
of an existing file. -/
def read_lead_ids_from_file (lines : List String) : List String :=
  match lines with
  | [] => []
  | line :: rest =>
    let lead_id := pyStrip line
    if lead_id.data.isEmpty then read_lead_ids_from_file rest
    else lead_id :: read_lead_ids_from_file rest

/-- Character-list prefix test. -/
def isPre : List Char → List Char → Bool
  | [], _ => true
  | _ :: _, [] => false
  | a :: as, b :: bs => a == b && isPre as bs

/-- Character-list substring test. -/
def listContainsSub : List Char → List Char → Bool
  | _, [] => true
  | [], _ :: _ => false
  | h :: t, n :: ns => isPre (n :: ns) (h :: t) || listContainsSub t (n :: ns)

/-- Substring test, modelling Python needle in hay for strings. -/
def strContainsSub (hay needle : String) : Bool :=
  listContainsSub hay.data needle.data

/-- Python `key in value` on a JSON value. Keys of a dict; element equality
for a list; substring for a string; TypeError on non-iterables. -/
def pyIn (key : String) : Json → Except PyError Bool
  | .obj fs => .ok (lookupField fs key).isSome
  | .arr xs => .ok (xs.any fun x => match x with | .str s => s == key | _ => false)
  | .str s => .ok (strContainsSub s key)
  | _ => .error (.typeError "argument is not iterable")

/-- Python value[key] subscription with a string key. -/
def pyIndex (j : Json) (key : String) : Except PyError Json :=
  match j with
  | .obj fs =>
    match lookupField fs key with
    | some v => .ok v
    | none => .error (.keyError key)
  | _ => .error (.typeError "value is not subscriptable with a string")

/-- What process_update_response prints for one Update Result Item
(update_lead_status.py lines 132-148). -/
structure ReportItem where
  recordId : Json
  success : Bool
  status : Option Json
  code : Option Json
  message : Option Json
  details : Json

/-- Python equality of result.get(k) with a string literal: true exactly
when the field is present and is that string. -/
def isStrVal (o : Option Json) (s : String) : Bool :=
  match o with
  | some (.str t) => t == s
  | _ => false

/-- The loop body of process_update_response for one element of the data
array: result.get on a non-dict raises AttributeError, as does
details.get("id", "N/A") when the details value is not a dict. -/
def classify_result : Json → Except PyError ReportItem
  | .obj fs =>
    let status := lookupField fs "status"
    let code := lookupField fs "code"
    let message := lookupField fs "message"
    let details := (lookupField fs "details").getD (.obj [])
    match details with
    | .obj dfs =>
      .ok { recordId := (lookupField dfs "id").getD (.str "N/A")
            success := isStrVal status "success" && isStrVal code "SUCCESS"
            status := status
            code := code
            message := message
            details := .obj dfs }
    | _ => .error (.attributeError "details has no attribute get")
  | _ => .error (.attributeError "result has no attribute get")

/-- The details value of an item is either absent (Python default {}) or a
dict, so classification cannot raise; this is the shape the Update Result
Item data model guarantees. -/
def detailsOk (fs : List (String × Json)) : Bool :=
  match lookupField fs "details" with
  | none => true
  | some (.obj _) => true
  | some _ => false

/-- The field list of the (defaulted) details value of an item. -/
def detailsFieldsOf (fs : List (String × Json)) : List (String × Json) :=
  match (lookupField fs "details").getD (.obj []) with
  | .obj dfs => dfs
  | _ => []

/-- Total form of classify_result on an item satisfying detailsOk. -/
def classify_item (fs : List (String × Json)) : ReportItem :=
  { recordId := (lookupField (detailsFieldsOf fs) "id").getD (.str "N/A")
    success := isStrVal (lookupField fs "status") "success" &&
               isStrVal (lookupField fs "code") "SUCCESS"
    status := lookupField fs "status"
    code := lookupField fs "code"
    message := lookupField fs "message"
    details := .obj (detailsFieldsOf fs) }

/-- What process_update_response does overall: either the
unexpected-format warning (raw body dumped) or the per-item reports. -/
inductive ProcessOutcome where
  | unexpectedFormat (raw : Json)
  | results (items : List ReportItem)

/-- The for loop over the data array, left to right: the first element
whose classification raises aborts the loop with that error. -/
def classifyAll : List Json → Except PyError (List ReportItem)
  | [] => .ok []
  | r :: rest => do
    let item ← classify_result r
    let items ← classifyAll rest
    .ok (item :: items)

/-- process_update_response of update_lead_status.py. The guard is
evaluated in Python order with short-circuiting: truthiness first, then
membership of "data" (which can raise TypeError), then subscription and
the isinstance list test. -/
def process_update_response (response_data : Json) : Except PyError ProcessOutcome := do
  let bad ← do
    if !response_data.truthy then pure true
    else
      let present ← pyIn "data" response_data
      if !present then pure true
      else do
        let d ← pyIndex response_data "data"
        pure !d.isArr
  if bad then
    return .unexpectedFormat response_data
  else do
    let d ← pyIndex response_data "data"
    match d with
    | .arr results => do
      let items ← classifyAll results
      return .results items
    | _ => .error (.typeError "unreachable: guarded to be a list")

def fieldToUpdate : String := "Lead_Status"

def newStatusValue : String := "Junk Lead"

/-- update_lead_statuses: builds the PUT body {data: [{id, Lead_Status}]}
and performs the one PUT; raise_for_status turns 4xx and 5xx into
HTTPError, otherwise the parsed body is returned. The first component is
the request body it sent. -/
def update_lead_statuses (lead_ids : List String) (resp : HttpResp) :
    Json × Except PyError Json :=
  let data_payload := lead_ids.map fun i =>
    Json.obj [("id", .str i), (fieldToUpdate, .str newStatusValue)]
  let request_body := Json.obj [("data", .arr data_payload)]
  (request_body,
   if 400 ≤ resp.status then .error (.httpError resp.status) else .ok resp.body)

/-- The environment one run of update_lead_status.py main observes:
the input file contents (none when the file is missing), the answer typed
at the confirmation prompt, the credentials, and the one response each of
the two possible HTTP calls would receive. -/
structure UpdateEnv where
  fileLines : Option (List String)
  confirmAnswer : String
  clientId : Option String
  clientSecret : Option String
  refreshToken : Option String
  tokenResp : HttpResp
  updateResp : HttpResp

/-- Observable trace of one run of update_lead_status.py main: whether the
confirmation prompt was shown, how many token POSTs and update PUTs were
issued, the PUT body if any, the processed per-item outcome if reached,
and the console messages (interpolated filenames and exception texts are
elided; quotes around them are dropped). -/
structure UpdateTrace where
  promptShown : Bool
  tokenPosts : Nat
  putCalls : Nat
  putBody : Option Json
  processed : Option ProcessOutcome
  messages : List String

def noIdsMsg : String := "No Lead IDs found in input_data/junk_lead_ids.txt. Exiting."

def cancelMsg : String := "Operation cancelled by user."

def fileNotFoundMsg : String :=
  "Error: Input file input_data/junk_lead_ids.txt not found. Please create it with one Lead ID per line."

/-- The top-level except clauses of update_lead_status.py main, in order:
ValueError, FileNotFoundError, RequestException (HTTPError included),
then any Exception. -/
def mainHandlerMsg : PyError → String
  | .valueError m => "Configuration Error: " ++ m
  | .fileNotFoundError => fileNotFoundMsg
  | .httpError st => "API Request Error: HTTP " ++ toString st
  | .keyError m => "An unexpected error occurred: " ++ m
  | .typeError m => "An unexpected error occurred: " ++ m
  | .attributeError m => "An unexpected error occurred: " ++ m

def foundMsg (n : Nat) : String :=
  "Found " ++ toString n ++ " Lead IDs to update in input_data/junk_lead_ids.txt."

/-- main of update_lead_status.py as a pure function of its environment. -/
def update_main (env : UpdateEnv) : UpdateTrace :=
  match env.fileLines with
  | none => ⟨false, 0, 0, none, none, [fileNotFoundMsg]⟩
  | some lines =>
    let ids := read_lead_ids_from_file lines
    if ids.isEmpty then ⟨false, 0, 0, none, none, [noIdsMsg]⟩
    else
      let fm := foundMsg ids.length
      if pyLower env.confirmAnswer != "yes" then
        ⟨true, 0, 0, none, none, [fm, cancelMsg]⟩
      else
        match get_access_token env.clientId env.clientSecret env.refreshToken env.tokenResp with
        | (.error e, n) => ⟨true, n, 0, none, none, [fm, mainHandlerMsg e]⟩
        | (.ok _, n) =>
          let sent := update_lead_statuses ids env.updateResp
          match sent.2 with
          | .error e => ⟨true, n, 1, some sent.1, none, [fm, mainHandlerMsg e]⟩
          | .ok rbody =>
            match process_update_response rbody with
            | .error e => ⟨true, n, 1, some sent.1, none, [fm, mainHandlerMsg e]⟩
            | .ok out => ⟨true, n, 1, some sent.1, some out, [fm]⟩

/-- str(value) as the csv writer renders a cell; None becomes the empty
cell. Nested lists and dicts are rendered opaquely: no claim exercises a
nested cell value. -/
def pyStr : Json → String
  | .null => ""
  | .bool b => cond b "True" "False"
  | .num n => toString n
  | .str s => s
  | .arr _ => "<list>"
  | .obj _ => "<dict>"

/-- One csv.DictWriter data row: fieldnames in header order, a missing key
filled with the restval, the empty string. -/
def csvRow (headers : List String) (fs : List (String × Json)) : List String :=
  headers.map fun h => pyStr ((lookupField fs h).getD .null)

/-- DictWriter.writerows over the lead list: rows are emitted one by one;
a record carrying a key outside the fieldnames raises ValueError and a
non-dict record raises AttributeError, in both cases after the earlier
rows were already written. Returns the rows written and whether the whole
list was written. -/
def csvWriteRows (headers : List String) : List Json → List (List String) × Bool
  | [] => ([], true)
  | .obj fs :: rest =>
    if fs.all (fun p => headers.contains p.1) then
      let out := csvWriteRows headers rest
      (csvRow headers fs :: out.1, out.2)
    else ([], false)
  | _ :: _ => ([], false)

/-- Contents of the CSV file the export created: the header row, the data
rows actually written, and whether writing ran to completion. -/
structure CsvWrite where
  header : List String
  rows : List (List String)
  complete : Bool

/-- Observable outcome of the export post-processing: the CSV file if one
was created, the record list dumped to the JSON file if one was created,
and the console messages. -/
structure ExportOutcome where
  csvFile : Option CsvWrite
  jsonFile : Option (List Json)
  messages : List String

def noLeadsMsg : String :=
  "API response received, but no leads found in the expected format."

def noDataMsg : String := "No data returned from the API."

def unexpectedTopMsg : String := "An unexpected error occurred"

def csvIoErrMsg : String := "Error writing to CSV file"

def csvUnexpectedMsg : String := "An unexpected error occurred during CSV writing"

def jsonIoErrMsg : String := "Error writing to JSON file"

def csvOkMsg (n : Nat) : String :=
  "Successfully wrote " ++ toString n ++ " leads to the CSV file"

def jsonOkMsg (n : Nat) : String :=
  "Successfully wrote " ++ toString n ++ " leads to the JSON file"

/-- Lines 101-152 of fetch_leads.py main together with the surrounding
except clauses: the branch on the fetched body, header derivation from the
first record, the two independent file writes, and the fallback messages.
csvOk and jsonOk say whether opening the respective output file succeeds
(an I/O failure is modelled at open, before anything is written).
Interpolated filenames and exception texts in messages are elided. -/
def export_postprocess (leads_data : Json) (csvOk jsonOk : Bool) : ExportOutcome :=
  if !leads_data.truthy then ⟨none, none, [noDataMsg]⟩
  else
    match pyIn "data" leads_data with
    | .error _ => ⟨none, none, [unexpectedTopMsg]⟩
    | .ok false => ⟨none, none, [noLeadsMsg]⟩
    | .ok true =>
      match pyIndex leads_data "data" with
      | .error _ => ⟨none, none, [unexpectedTopMsg]⟩
      | .ok (.arr (first :: rest)) =>
        match first with
        | .obj fs0 =>
          let leads := Json.obj fs0 :: rest
          let headers := fs0.map fun p => p.1
          let n := leads.length
          let csvPart : Option CsvWrite × String :=
            if csvOk then
              let w := csvWriteRows headers leads
              (some ⟨headers, w.1, w.2⟩, if w.2 then csvOkMsg n else csvUnexpectedMsg)
            else (none, csvIoErrMsg)
          let jsonPart : Option (List Json) × String :=
            if jsonOk then (some leads, jsonOkMsg n) else (none, jsonIoErrMsg)
          ⟨csvPart.1, jsonPart.1, [csvPart.2, jsonPart.2]⟩
        | _ => ⟨none, none, [unexpectedTopMsg]⟩
      | .ok _ => ⟨none, none, [noLeadsMsg]⟩

/-- A record is a dict whose key list equals the given header list. -/
def sameKeys (headers : List String) : Json → Bool
  | .obj fs => fs.map (fun p => p.1) == headers
  | _ => false

/-- The row the export writes for a record, as a function of the record. -/
def csvRowOf (headers : List String) : Json → List String
  | .obj fs => csvRow headers fs
  | _ => []

/-- The data value of an export or update body is missing, not a list, or
an empty list. -/
def dataBad (rfs : List (String × Json)) : Bool :=
  match lookupField rfs "data" with
  | none => true
  | some (.arr xs) => xs.isEmpty
  | some _ => true

/-- The conclusion of the amended C5 claim, shared with its witness. -/
def tokenFailureConclusion (cid cs rt : Option String) (st : Nat)
    (fs : List (String × Json)) (lines : List String) (ans : String)
    (ur : HttpResp) : Prop :=
  (400 ≤ st →
    get_access_token cid cs rt ⟨st, .obj fs⟩ = (.error (.httpError st), 1) ∧
    PyError.kind (.httpError st) ≠ PyError.kind (.valueError credsErrorMsg) ∧
    ((read_lead_ids_from_file lines).isEmpty = false → pyLower ans = "yes" →
      (update_main ⟨some lines, ans, cid, cs, rt, ⟨st, .obj fs⟩, ur⟩).tokenPosts = 1 ∧
      (update_main ⟨some lines, ans, cid, cs, rt, ⟨st, .obj fs⟩, ur⟩).putCalls = 0 ∧
      mainHandlerMsg (.httpError st) ∈
        (update_main ⟨some lines, ans, cid, cs, rt, ⟨st, .obj fs⟩, ur⟩).messages)) ∧
  (st < 400 → ((lookupField fs "access_token").getD .null).truthy = false →
    get_access_token cid cs rt ⟨st, .obj fs⟩ = (.error (.valueError noTokenMsg), 1))

/-- The conclusion of claim C2, shared with its witness: the data array of
the response is reported item by item; an item is classified a success
exactly when its status field is the string success and its code field the
string SUCCESS, and every report carries the server-supplied status, code,
message and details, the record id read from details (N/A when absent). -/
def classifiedConclusion (rfs : List (String × Json))
    (items : List (List (String × Json))) : Prop :=
  process_update_response (.obj rfs) = .ok (.results (items.map classify_item)) ∧
  ∀ fs ∈ items,
    ((classify_item fs).success = true ↔
      lookupField fs "status" = some (.str "success") ∧
      lookupField fs "code" = some (.str "SUCCESS")) ∧
    (classify_item fs).status = lookupField fs "status" ∧
    (classify_item fs).code = lookupField fs "code" ∧
    (classify_item fs).message = lookupField fs "message" ∧
    (classify_item fs).details = .obj (detailsFieldsOf fs) ∧
    (classify_item fs).recordId =
      (lookupField (detailsFieldsOf fs) "id").getD (.str "N/A")

/-- The update response of the spec example for claim C2: one item that
succeeded and one that failed with code INVALID_DATA and message bad. -/
def exampleUpdateItems : List (List (String × Json)) :=
  [[("status", .str "success"), ("code", .str "SUCCESS"),
    ("details", .obj [("id", .str "1")])],
   [("status", .str "error"), ("code", .str "INVALID_DATA"),
    ("message", .str "bad"), ("details", .obj [("id", .str "2")])]]

/-- The conclusion of the amended C3 claim, shared with its witness: for a
body whose data list is non-empty and homogeneous, the CSV file gets the
first record's key list as header and one row per record in response
order, written to completion, and the JSON file gets the same record list;
each write is attempted independently of the other's I/O outcome. -/
def exportHomConclusion (rfs fs0 : List (String × Json)) (rest : List Json) : Prop :=
  ∀ csvOk jsonOk : Bool,
    (csvOk = true →
      (export_postprocess (.obj rfs) csvOk jsonOk).csvFile =
        some ⟨fs0.map fun p => p.1,
              (Json.obj fs0 :: rest).map (csvRowOf (fs0.map fun p => p.1)),
              true⟩) ∧
    (csvOk = false →
      (export_postprocess (.obj rfs) csvOk jsonOk).csvFile = none) ∧
    (jsonOk = true →
      (export_postprocess (.obj rfs) csvOk jsonOk).jsonFile =
        some (Json.obj fs0 :: rest)) ∧
    (jsonOk = false →
      (export_postprocess (.obj rfs) csvOk jsonOk).jsonFile = none)

/-- The export response of the spec example for claim C3. -/
def exampleLeads : List Json :=
  [.obj [("id", .str "1"), ("Last_Name", .str "A")],
   .obj [("id", .str "2"), ("Last_Name", .str "B")]]

/-! Helper lemmas, shared between the claim theorems. -/

lemma exceptPureEq {ε α : Type} (a : α) : (pure a : Except ε α) = .ok a := rfl

lemma exceptOkBind {ε α β : Type} (a : α) (f : α → Except ε β) :
    (Except.ok a : Except ε α) >>= f = f a := rfl

lemma exceptErrorBind {ε α β : Type} (e : ε) (f : α → Except ε β) :
    (Except.error e : Except ε α) >>= f = .error e := rfl

lemma exceptOkMap {ε α β : Type} (g : α → β) (a : α) :
    g <$> (Except.ok a : Except ε α) = .ok (g a) := rfl

lemma exceptErrorMap {ε α β : Type} (g : α → β) (e : ε) :
    g <$> (Except.error e : Except ε α) = .error e := rfl

lemma lookupField_isEmpty_false {fs : List (String × Json)} {k : String} {v : Json}
    (h : lookupField fs k = some v) : fs.isEmpty = false := by
  cases fs with
  | nil => simp [lookupField] at h
  | cons a rest => rfl

lemma isStrVal_eq_true_iff (o : Option Json) (s : String) :
    isStrVal o s = true ↔ o = some (.str s) := by
  cases o with
  | none => simp [isStrVal]
  | some j => cases j <;> simp [isStrVal]

lemma classify_result_ok (fs : List (String × Json)) (h : detailsOk fs = true) :
    classify_result (.obj fs) = .ok (classify_item fs) := by
  cases hl : lookupField fs "details" with
  | none => simp [classify_result, classify_item, detailsFieldsOf, hl]
  | some v =>
    rw [detailsOk] at h
    rw [hl] at h
    cases v <;>
      simp_all [classify_result, classify_item, detailsFieldsOf, hl]

lemma classifyAll_map_obj (items : List (List (String × Json)))
    (h : ∀ fs ∈ items, detailsOk fs = true) :
    classifyAll (items.map Json.obj) = .ok (items.map classify_item) := by
  induction items with
  | nil => rfl
  | cons a as ih =>
    have ha := classify_result_ok a (h a (List.mem_cons_self a as))
    have hrest := ih fun fs hf => h fs (List.mem_cons_of_mem a hf)
    simp [classifyAll, List.map_cons, ha, hrest, exceptOkBind, exceptPureEq]

lemma all_keys_contained (fs : List (String × Json)) :
    fs.all (fun p => (fs.map fun p => p.1).contains p.1) = true := by
  rw [List.all_eq_true]
  intro p hp
  have hm : p.1 ∈ fs.map fun p => p.1 := List.mem_map_of_mem _ hp
  simpa [List.contains] using hm

lemma csvWriteRows_complete (headers : List String) (leads : List Json)
    (h : leads.all (sameKeys headers) = true) :
    csvWriteRows headers leads = (leads.map (csvRowOf headers), true) := by
  induction leads with
  | nil => rfl
  | cons j rest ih =>
    rw [List.all_cons, Bool.and_eq_true] at h
    obtain ⟨hj, hrest⟩ := h
    cases j with
    | obj fs =>
      have hk : fs.map (fun p => p.1) = headers := by
        simpa [sameKeys] using hj
      have hall : fs.all (fun p => headers.contains p.1) = true := by
        subst hk
        exact all_keys_contained fs
      simp only [csvWriteRows]
      rw [hall]
      simp [csvRowOf, ih hrest]
    | null => simp [sameKeys] at hj
    | bool b => simp [sameKeys] at hj
    | num n => simp [sameKeys] at hj
    | str s => simp [sameKeys] at hj
    | arr xs => simp [sameKeys] at hj

/-! Claim theorems. -/

/-- C6: the update path reads as lead IDs exactly the lines that are
non-empty after trimming whitespace, preserving file order. -/
theorem read_ids_are_trimmed_nonempty_lines (lines : List String) :
    read_lead_ids_from_file lines =
      (lines.map pyStrip).filter (fun s => !s.data.isEmpty) := by
  induction lines with
  | nil => rfl
  | cons l rest ih =>
    by_cases h : (pyStrip l).data.isEmpty <;>
      simp [read_lead_ids_from_file, List.filter_cons, h, ih]

/-- C4: with any of the three credentials absent, the token exchange fails
with the configuration ValueError and issues zero HTTP POSTs. -/
theorem missing_credential_no_post (cid cs rt : Option String) (resp : HttpResp)
    (h : cid = none ∨ cs = none ∨ rt = none) :
    get_access_token cid cs rt resp = (.error (.valueError credsErrorMsg), 0) := by
  have hc : credsPresent cid cs rt = false := by
    cases cid <;> cases cs <;> cases rt <;> simp_all [credsPresent]
  simp [get_access_token, hc]

/-- C4 witness at a concrete environment with the client secret absent. -/
theorem missing_credential_no_post_witness :
    (some "cid" = none ∨ (none : Option String) = none ∨ some "rt" = none) ∧
    get_access_token (some "cid") none (some "rt") ⟨200, .null⟩ =
      (.error (.valueError credsErrorMsg), 0) :=
  ⟨Or.inr (Or.inl rfl),
   missing_credential_no_post (some "cid") none (some "rt") ⟨200, .null⟩
     (Or.inr (Or.inl rfl))⟩

/-- C10: when the input file exists but yields no IDs, main prints the
No Lead IDs found message and returns before the prompt, with no token
POST and no PUT. -/
theorem empty_id_file_aborts_before_prompt (env : UpdateEnv) (lines : List String)
    (h1 : env.fileLines = some lines)
    (h2 : (read_lead_ids_from_file lines).isEmpty = true) :
    update_main env = ⟨false, 0, 0, none, none, [noIdsMsg]⟩ := by
  simp [update_main, h1, h2]

/-- C10 witness: a file of one empty and one whitespace-only line. -/
theorem empty_id_file_aborts_before_prompt_witness :
    (⟨some ["", "  "], "yes", some "cid", some "cs", some "rt",
       ⟨200, .null⟩, ⟨200, .null⟩⟩ : UpdateEnv).fileLines = some ["", "  "] ∧
    (read_lead_ids_from_file ["", "  "]).isEmpty = true ∧
    update_main ⟨some ["", "  "], "yes", some "cid", some "cs", some "rt",
       ⟨200, .null⟩, ⟨200, .null⟩⟩ = ⟨false, 0, 0, none, none, [noIdsMsg]⟩ :=
  ⟨rfl, by decide,
   empty_id_file_aborts_before_prompt _ ["", "  "] rfl (by decide)⟩

/-- C1: any confirmation answer whose lowercased form is not yes makes
main print the cancellation message and return with zero token POSTs and
zero PUTs. -/
theorem non_yes_answer_cancels (env : UpdateEnv) (lines : List String)
    (h1 : env.fileLines = some lines)
    (h2 : (read_lead_ids_from_file lines).isEmpty = false)
    (h3 : pyLower env.confirmAnswer ≠ "yes") :
    update_main env =
      ⟨true, 0, 0, none, none,
       [foundMsg (read_lead_ids_from_file lines).length, cancelMsg]⟩ := by
  have h3b : (pyLower env.confirmAnswer != "yes") = true := by
    simpa [bne_iff_ne] using h3
  simp [update_main, h1, h2, h3b]

/-- C1 witness: answer N at the prompt over a one-ID file. -/
theorem non_yes_answer_cancels_witness :
    (⟨some ["4876876000000123456"], "N", some "cid", some "cs", some "rt",
       ⟨200, .null⟩, ⟨200, .null⟩⟩ : UpdateEnv).fileLines =
        some ["4876876000000123456"] ∧
    (read_lead_ids_from_file ["4876876000000123456"]).isEmpty = false ∧
    (pyLower "N" ≠ "yes") ∧
    update_main ⟨some ["4876876000000123456"], "N", some "cid", some "cs",
       some "rt", ⟨200, .null⟩, ⟨200, .null⟩⟩ =
      ⟨true, 0, 0, none, none,
       [foundMsg (read_lead_ids_from_file ["4876876000000123456"]).length,
        cancelMsg]⟩ :=
  ⟨rfl, by decide, by decide,
   non_yes_answer_cancels _ ["4876876000000123456"] rfl (by decide) (by decide)⟩

/-- C9 counterexample: with all credentials present and the endpoint
answering HTTP 200 with body containing access_token set to the empty
string, the code does not return that string: the falsy token is treated
as missing and a ValueError is raised. -/
theorem empty_access_token_rejected :
    get_access_token (some "cid") (some "cs") (some "rt")
        ⟨200, .obj [("access_token", .str "")]⟩ =
      (.error (.valueError noTokenMsg), 1) := rfl

/-- C9 amended: with all credentials present and a 2xx response whose body
carries a non-empty access_token string X, the exchange returns exactly X
after one POST. -/
theorem token_success_returns_token (cid cs rt : Option String) (st : Nat)
    (fs : List (String × Json)) (x : String)
    (hc : credsPresent cid cs rt = true)
    (h2 : 200 ≤ st) (h3 : st < 300)
    (hx : x.data.isEmpty = false)
    (hf : lookupField fs "access_token" = some (.str x)) :
    get_access_token cid cs rt ⟨st, .obj fs⟩ = (.ok (.str x), 1) := by
  have h4 : ¬ (400 ≤ st) := by omega
  simp [get_access_token, hc, h4, hf, Json.truthy, hx]

/-- C9 witness at the body of the spec example. -/
theorem token_success_returns_token_witness :
    credsPresent (some "cid") (some "cs") (some "rt") = true ∧
    200 ≤ 200 ∧ 200 < 300 ∧ "X".data.isEmpty = false ∧
    lookupField [("access_token", Json.str "X")] "access_token" =
      some (.str "X") ∧
    get_access_token (some "cid") (some "cs") (some "rt")
        ⟨200, .obj [("access_token", .str "X")]⟩ = (.ok (.str "X"), 1) :=
  ⟨by decide, by decide, by decide, by decide, rfl,
   token_success_returns_token (some "cid") (some "cs") (some "rt") 200
     [("access_token", Json.str "X")] "X" (by decide) (by decide) (by decide)
     (by decide) rfl⟩

/-- C5 counterexample: a 200 response whose JSON body lacks access_token
makes the exchange fail with a ValueError, which is the same exception
kind as the missing-credentials ConfigurationError, not a distinct one
(main even reports both under the Configuration Error print). -/
theorem missing_token_same_kind_as_config_error :
    (get_access_token (some "cid") (some "cs") (some "rt") ⟨200, .obj []⟩).1 =
      .error (.valueError noTokenMsg) ∧
    (get_access_token none (some "cs") (some "rt")
        ⟨200, .obj [("access_token", .str "T")]⟩).1 =
      .error (.valueError credsErrorMsg) ∧
    PyError.kind (.valueError noTokenMsg) =
      PyError.kind (.valueError credsErrorMsg) :=
  ⟨rfl, rfl, rfl⟩

/-- C5 amended: with credentials present, a 4xx or 5xx token response
fails with HTTPError (a kind distinct from the configuration ValueError)
after exactly one POST, and the update script then aborts with the API
Request Error message without any PUT; a sub-400 response whose body has
no truthy access_token fails with the same ValueError kind used for
configuration errors, again after exactly one POST and with no retry. -/
theorem token_failure_aborts (cid cs rt : Option String) (st : Nat)
    (fs : List (String × Json)) (lines : List String) (ans : String)
    (ur : HttpResp) (hc : credsPresent cid cs rt = true) :
    tokenFailureConclusion cid cs rt st fs lines ans ur := by
  constructor
  · intro h400
    have hget : get_access_token cid cs rt ⟨st, .obj fs⟩ =
        (.error (.httpError st), 1) := by
      simp [get_access_token, hc, h400]
    refine ⟨hget, by simp [PyError.kind], ?_⟩
    intro hids hyes
    have hb : (pyLower ans != "yes") = false := by simp [hyes]
    simp [update_main, hids, hb, hget, List.mem_cons]
  · intro hlt hfalsy
    have h4 : ¬ (400 ≤ st) := by omega
    cases hl : lookupField fs "access_token" with
    | none => simp [get_access_token, hc, h4, hl]
    | some tok =>
      rw [hl] at hfalsy
      simp only [Option.getD_some] at hfalsy
      simp [get_access_token, hc, h4, hl, hfalsy]

/-- C5 witness at a 401 token response during a confirmed update run. -/
theorem token_failure_aborts_witness :
    credsPresent (some "cid") (some "cs") (some "rt") = true ∧
    tokenFailureConclusion (some "cid") (some "cs") (some "rt") 401 []
      ["4876876000000123456"] "yes" ⟨200, .null⟩ :=
  ⟨by decide,
   token_failure_aborts (some "cid") (some "cs") (some "rt") 401 []
     ["4876876000000123456"] "yes" ⟨200, .null⟩ (by decide)⟩

/-- C8 counterexample: a truthy non-dict body with no data key, the JSON
number 5, does not produce the warning and a normal return: the membership
test data in 5 raises TypeError inside process_update_response. -/
theorem process_raises_on_number_body :
    process_update_response (.num 5) =
      .error (.typeError "argument is not iterable") := rfl

/-- C8 amended: a falsy body, or a dict body whose data key is missing or
whose data value is not a list, is reported as the unexpected-format
warning with the raw body dumped, and process_update_response returns
normally without raising. -/
theorem malformed_update_response_warns (resp : Json)
    (h : resp.truthy = false ∨
      ∃ rfs, resp = .obj rfs ∧
        (lookupField rfs "data" = none ∨
         ((lookupField rfs "data").getD .null).isArr = false)) :
    process_update_response resp = .ok (.unexpectedFormat resp) := by
  rcases h with ht | ⟨rfs, rfl, hd⟩
  · simp [process_update_response, ht, exceptPureEq, exceptOkBind]
  · by_cases ht : Json.truthy (.obj rfs)
    · rcases hd with hd | hd
      · simp [process_update_response, ht, pyIn, hd, exceptPureEq, exceptOkBind]
      · cases hl : lookupField rfs "data" with
        | none =>
          simp [process_update_response, ht, pyIn, hl, exceptPureEq, exceptOkBind]
        | some v =>
          rw [hl] at hd
          simp only [Option.getD_some] at hd
          simp [process_update_response, ht, pyIn, pyIndex, hl,
            Option.isSome, hd, exceptPureEq, exceptOkBind]
    · simp [process_update_response, ht, exceptPureEq, exceptOkBind]

/-- C8 witness: a dict body carrying only an info key. -/
theorem malformed_update_response_warns_witness :
    ((Json.obj [("info", .str "x")]).truthy = false ∨
      ∃ rfs, Json.obj [("info", .str "x")] = .obj rfs ∧
        (lookupField rfs "data" = none ∨
         ((lookupField rfs "data").getD .null).isArr = false)) ∧
    process_update_response (.obj [("info", .str "x")]) =
      .ok (.unexpectedFormat (.obj [("info", .str "x")])) :=
  ⟨Or.inr ⟨[("info", .str "x")], rfl, Or.inl rfl⟩,
   malformed_update_response_warns (.obj [("info", .str "x")])
     (Or.inr ⟨[("info", .str "x")], rfl, Or.inl rfl⟩)⟩

/-- C2: every Update Result Item of the data array is classified and
reported as a success exactly when its status field equals the string
success and its code field equals the string SUCCESS; every other item is
reported a failure carrying the server-supplied status, code, message and
details, with the record id taken from details. -/
theorem update_items_classified (rfs : List (String × Json))
    (items : List (List (String × Json)))
    (hd : lookupField rfs "data" = some (.arr (items.map Json.obj)))
    (h : ∀ fs ∈ items, detailsOk fs = true) :
    classifiedConclusion rfs items := by
  have hne : rfs.isEmpty = false := lookupField_isEmpty_false hd
  constructor
  · simp [process_update_response, Json.truthy, hne, pyIn, hd, pyIndex,
      Json.isArr, classifyAll_map_obj items h, exceptOkBind, exceptPureEq]
  · intro fs _
    refine ⟨?_, rfl, rfl, rfl, rfl, rfl⟩
    simp [classify_item, Bool.and_eq_true, isStrVal_eq_true_iff]

/-- C2 witness at the update response of the spec example. -/
theorem update_items_classified_witness :
    lookupField [("data", Json.arr (exampleUpdateItems.map Json.obj))] "data" =
      some (.arr (exampleUpdateItems.map Json.obj)) ∧
    (∀ fs ∈ exampleUpdateItems, detailsOk fs = true) ∧
    classifiedConclusion [("data", Json.arr (exampleUpdateItems.map Json.obj))]
      exampleUpdateItems :=
  ⟨rfl, by decide,
   update_items_classified _ exampleUpdateItems rfl (by decide)⟩

/-- C3 counterexample: a body whose non-empty data list has divergent key
sets. The header is taken from the first record, writing the second record
raises ValueError inside the csv writer, and the CSV file ends up with one
data row instead of one per record, so the rows are not the records in
response order; the JSON file still gets both records. -/
theorem export_heterogeneous_rows_lost :
    export_postprocess
        (.obj [("data", .arr [.obj [("a", .str "1")], .obj [("b", .str "2")]])])
        true true =
      ⟨some ⟨["a"], [["1"]], false⟩,
       some [.obj [("a", .str "1")], .obj [("b", .str "2")]],
       [csvUnexpectedMsg, jsonOkMsg 2]⟩ := rfl

/-- C3 amended: for a body whose data value is a non-empty list of records
that all share the first record's key list, the CSV file is written to
completion with that key list as header and the records as rows in
response order, the JSON file receives the same record list, and each
write happens independently of the other's I/O outcome. -/
theorem export_writes_csv_and_json (rfs fs0 : List (String × Json))
    (rest : List Json)
    (hd : lookupField rfs "data" = some (.arr (Json.obj fs0 :: rest)))
    (hhom : (Json.obj fs0 :: rest).all (sameKeys (fs0.map fun p => p.1)) = true) :
    exportHomConclusion rfs fs0 rest := by
  intro csvOk jsonOk
  have hne : rfs.isEmpty = false := lookupField_isEmpty_false hd
  have hw := csvWriteRows_complete (fs0.map fun p => p.1) (Json.obj fs0 :: rest) hhom
  cases csvOk <;> cases jsonOk <;>
    simp [export_postprocess, Json.truthy, hne, pyIn, hd, pyIndex, Json.isArr, hw]

/-- C3 witness at the export response of the spec example. -/
theorem export_writes_csv_and_json_witness :
    lookupField [("data", Json.arr exampleLeads)] "data" =
      some (.arr exampleLeads) ∧
    exampleLeads.all (sameKeys ["id", "Last_Name"]) = true ∧
    exportHomConclusion [("data", Json.arr exampleLeads)]
      [("id", .str "1"), ("Last_Name", .str "A")]
      [.obj [("id", .str "2"), ("Last_Name", .str "B")]] :=
  ⟨rfl, by decide,
   export_writes_csv_and_json [("data", Json.arr exampleLeads)]
     [("id", .str "1"), ("Last_Name", .str "A")]
     [.obj [("id", .str "2"), ("Last_Name", .str "B")]] rfl (by decide)⟩

/-- C7 counterexample: for the empty-object body the data key is missing,
no file is written, but the message printed is No data returned from the
API, which is not the no-leads-found message and does not contain the
words no leads found. -/
theorem export_falsy_body_message :
    export_postprocess (.obj []) true true = ⟨none, none, [noDataMsg]⟩ ∧
    (export_postprocess (.obj []) true true).messages.contains noLeadsMsg = false ∧
    strContainsSub noDataMsg "no leads found" = false :=
  ⟨rfl, rfl, rfl⟩

/-- C7 amended: for a non-empty dict body whose data key is missing, not a
list, or an empty list, no CSV and no JSON file is written and the
no-leads-found message is printed; for the falsy empty-dict body no file
is written either, but the message is No data returned from the API. -/
theorem export_no_leads_no_files (rfs : List (String × Json))
    (csvOk jsonOk : Bool)
    (h1 : rfs.isEmpty = false) (h2 : dataBad rfs = true) :
    export_postprocess (.obj rfs) csvOk jsonOk = ⟨none, none, [noLeadsMsg]⟩ ∧
    export_postprocess (.obj []) csvOk jsonOk = ⟨none, none, [noDataMsg]⟩ := by
  constructor
  · cases hl : lookupField rfs "data" with
    | none => simp [export_postprocess, Json.truthy, h1, pyIn, hl]
    | some v =>
      cases v with
      | arr xs =>
        cases xs with
        | nil => simp [export_postprocess, Json.truthy, h1, pyIn, pyIndex, hl]
        | cons y ys => simp [dataBad, hl] at h2
      | null => simp [export_postprocess, Json.truthy, h1, pyIn, pyIndex, hl]
      | bool b => simp [export_postprocess, Json.truthy, h1, pyIn, pyIndex, hl]
      | num n => simp [export_postprocess, Json.truthy, h1, pyIn, pyIndex, hl]
      | str s => simp [export_postprocess, Json.truthy, h1, pyIn, pyIndex, hl]
      | obj o => simp [export_postprocess, Json.truthy, h1, pyIn, pyIndex, hl]
  · simp [export_postprocess, Json.truthy]

/-- C7 witness: a dict body whose data value is the empty list, as in the
spec example. -/
theorem export_no_leads_no_files_witness :
    ([("data", Json.arr [])] : List (String × Json)).isEmpty = false ∧
    dataBad [("data", Json.arr [])] = true ∧
    (export_postprocess (.obj [("data", Json.arr [])]) true true =
       ⟨none, none, [noLeadsMsg]⟩ ∧
     export_postprocess (.obj []) true true = ⟨none, none, [noDataMsg]⟩) :=
  ⟨rfl, rfl, export_no_leads_no_files [("data", Json.arr [])] true true rfl rfl⟩

end ZohoCrm
